import Mathlib

/-!
# Verification of the core game-loop mechanics of the "valentine" Pong variant

Shallow embedding of `src/code/sprites.py` (Paddle, Ball: movement, swept
collision, wall collision, serve timer) and `src/code/main.py`
(`Game.update_score`, `Game.reset_challenge_round`, the gameplay loop in
`Game.run`).

Modelling conventions:
* pygame rectangles are modelled by `Rect` with rational coordinates
  (`left`, `top`, `width`, `height`); pygame's integer truncation of rect
  coordinates is idealised away, as the spec describes continuous motion.
* Python floats are modelled as exact rationals.
* The configuration constants from `settings.py` (not present in the
  sources: `WINDOW_WIDTH`, `WINDOW_HEIGHT`, `SPEED`, `POS`, `SIZE`) are
  universally quantified parameters of the definitions.
* Calls to `random.choice` / `random.uniform` are modelled by an explicit
  oracle value (`RandDir`) consumed where the code draws randomness; the
  range promise of `uniform(0.7, 0.8)` becomes a hypothesis on the oracle.
* `pygame.time.get_ticks()` is an explicit integer parameter `now`
  (milliseconds).
-/

/-- Side identifier passed to the scoring callback (`'player'` / `'opponent'`). -/
inductive Side where
  | player
  | opponent
deriving DecidableEq

/-- Scoring / challenge state owned by `Game` in `main.py`:
the two score counters and the three challenge flags. -/
structure ChState where
  score_player : Nat
  score_opponent : Nat
  in_challenge : Bool
  challenge_won : Bool
  show_retry_modal : Bool
deriving DecidableEq

/-- `Game.TARGET_PLAYER` (main.py line 67). -/
def TARGET_PLAYER : Nat := 26

/-- `Game.TARGET_OPPONENT` (main.py line 68). -/
def TARGET_OPPONENT : Nat := 7

/-- `Game.update_score` (main.py lines 76-95): increment the scoring side's
counter; if in the challenge, set `challenge_won` on an exact simultaneous
match of both targets, else set `show_retry_modal` when either counter
strictly exceeds its target. -/
def update_score (side : Side) (g : ChState) : ChState :=
  let g1 :=
    match side with
    | Side.player => { g with score_player := g.score_player + 1 }
    | Side.opponent => { g with score_opponent := g.score_opponent + 1 }
  if g1.in_challenge then
    if g1.score_player = TARGET_PLAYER ∧ g1.score_opponent = TARGET_OPPONENT then
      { g1 with challenge_won := true }
    else if g1.score_player > TARGET_PLAYER ∨ g1.score_opponent > TARGET_OPPONENT then
      { g1 with show_retry_modal := true }
    else
      g1
  else
    g1

/-- C1: while the challenge is active (in_challenge, not won, no overshoot
pending), a scoring event increments exactly the scoring side's counter; if
afterwards the counters are exactly (26, 7) the state transitions to Won;
otherwise if either counter strictly exceeds its target the retry modal is
shown (Overshoot-Pending); otherwise the state stays Active unchanged. -/
theorem c1_update_score_active (side : Side) (g : ChState)
    (hin : g.in_challenge = true) (hwon : g.challenge_won = false)
    (hmodal : g.show_retry_modal = false) :
    ((side = Side.player →
        (update_score side g).score_player = g.score_player + 1 ∧
        (update_score side g).score_opponent = g.score_opponent) ∧
     (side = Side.opponent →
        (update_score side g).score_opponent = g.score_opponent + 1 ∧
        (update_score side g).score_player = g.score_player)) ∧
    ((update_score side g).score_player = TARGET_PLAYER ∧
     (update_score side g).score_opponent = TARGET_OPPONENT →
       (update_score side g).challenge_won = true ∧
       (update_score side g).show_retry_modal = false ∧
       (update_score side g).in_challenge = true) ∧
    (¬((update_score side g).score_player = TARGET_PLAYER ∧
       (update_score side g).score_opponent = TARGET_OPPONENT) ∧
     ((update_score side g).score_player > TARGET_PLAYER ∨
      (update_score side g).score_opponent > TARGET_OPPONENT) →
       (update_score side g).show_retry_modal = true ∧
       (update_score side g).challenge_won = false ∧
       (update_score side g).in_challenge = true) ∧
    (¬((update_score side g).score_player = TARGET_PLAYER ∧
       (update_score side g).score_opponent = TARGET_OPPONENT) ∧
     ¬((update_score side g).score_player > TARGET_PLAYER ∨
       (update_score side g).score_opponent > TARGET_OPPONENT) →
       (update_score side g).challenge_won = false ∧
       (update_score side g).show_retry_modal = false ∧
       (update_score side g).in_challenge = true) := by
  cases side <;>
    simp only [update_score, TARGET_PLAYER, TARGET_OPPONENT, hin, if_true] <;>
    split_ifs <;> simp_all

/-- Witness for C1 at score (25, 6), player scores: counter becomes 26 and
the state stays Active. -/
theorem c1_update_score_active_witness :
    (update_score Side.player ⟨25, 6, true, false, false⟩).score_player = 25 + 1 ∧
    (update_score Side.player ⟨25, 6, true, false, false⟩).challenge_won = false :=
  ⟨((c1_update_score_active Side.player ⟨25, 6, true, false, false⟩ rfl rfl rfl).1.1
      rfl).1,
   ((c1_update_score_active Side.player ⟨25, 6, true, false, false⟩ rfl rfl rfl).2.2.2
      (by decide)).1⟩

/-- C9: a scoring event processed while the challenge is active can set
`challenge_won` only if, before the event, the non-scoring side's counter
already equals its target. -/
theorem c9_win_needs_other_at_target (side : Side) (g : ChState)
    (hin : g.in_challenge = true) (hwon : g.challenge_won = false)
    (h : (update_score side g).challenge_won = true) :
    (side = Side.player → g.score_opponent = TARGET_OPPONENT) ∧
    (side = Side.opponent → g.score_player = TARGET_PLAYER) := by
  cases side <;>
    simp only [update_score, TARGET_PLAYER, TARGET_OPPONENT, hin, if_true] at h <;>
    split_ifs at h <;> simp_all [TARGET_PLAYER, TARGET_OPPONENT]

/-- Witness for C9: at score (25, 7), a player scoring event wins, and indeed
the opponent counter was already at its target 7. -/
theorem c9_win_needs_other_at_target_witness :
    (⟨25, 7, true, false, false⟩ : ChState).score_opponent = TARGET_OPPONENT :=
  (c9_win_needs_other_at_target Side.player ⟨25, 7, true, false, false⟩ rfl rfl
    (by decide)).1 rfl

/-! ## Geometry: pygame rectangles and 2D vectors -/

/-- A pygame rectangle: `x`/`left` and `y`/`top` corner plus size.
`right`, `bottom`, `centerx`, `centery` are derived; assigning to one of
them translates the rectangle, preserving its size. -/
structure Rect where
  left : ℚ
  top : ℚ
  width : ℚ
  height : ℚ
deriving DecidableEq

def Rect.right (r : Rect) : ℚ := r.left + r.width

def Rect.bottom (r : Rect) : ℚ := r.top + r.height

def Rect.centerx (r : Rect) : ℚ := r.left + r.width / 2

def Rect.centery (r : Rect) : ℚ := r.top + r.height / 2

/-- `rect.top = v` -/
def Rect.setTop (r : Rect) (v : ℚ) : Rect := { r with top := v }

/-- `rect.bottom = v` -/
def Rect.setBottom (r : Rect) (v : ℚ) : Rect := { r with top := v - r.height }

/-- `rect.left = v` (also `rect.x = v`) -/
def Rect.setLeft (r : Rect) (v : ℚ) : Rect := { r with left := v }

/-- `rect.right = v` -/
def Rect.setRight (r : Rect) (v : ℚ) : Rect := { r with left := v - r.width }

/-- `rect.centery = v` -/
def Rect.setCentery (r : Rect) (v : ℚ) : Rect := { r with top := v - r.height / 2 }

/-- `rect.center = (cx, cy)` -/
def Rect.setCenter (r : Rect) (cx cy : ℚ) : Rect :=
  { r with left := cx - r.width / 2, top := cy - r.height / 2 }

/-- `pygame.Rect.colliderect`: strict overlap on both axes. -/
def colliderect (a b : Rect) : Bool :=
  decide (a.left < b.right ∧ a.right > b.left ∧ a.top < b.bottom ∧ a.bottom > b.top)

/-- `pygame.Vector2` -/
structure Vec2 where
  x : ℚ
  y : ℚ
deriving DecidableEq

/-! ## Paddle (sprites.py lines 99-129) -/

/-- Mutable state of a `Paddle` sprite. -/
structure PaddleState where
  rect : Rect
  old_rect : Rect
  direction : ℚ
  speed : ℚ
deriving DecidableEq

/-- `Paddle.move` (sprites.py lines 99-102): advance the vertical center by
`direction * speed * dt`, then clamp `top` to 0 and `bottom` to the window
height. -/
def Paddle.move (H : ℚ) (p : PaddleState) (dt : ℚ) : PaddleState :=
  let r1 := p.rect.setCentery (p.rect.centery + p.direction * p.speed * dt)
  let r2 := if r1.top < 0 then r1.setTop 0 else r1
  let r3 := if r2.bottom > H then r2.setBottom H else r2
  { p with rect := r3 }

/-- `Player.get_direction` (sprites.py line 117): `int(down) - int(up)`. -/
def Player.get_direction (keyUp keyDown : Bool) : ℚ :=
  (if keyDown then 1 else 0) - (if keyUp then 1 else 0)

/-- `Opponent.get_direction` (sprites.py line 129): chase the ball's center. -/
def Opponent.get_direction (ballCentery selfCentery : ℚ) : ℚ :=
  if ballCentery > selfCentery then 1 else -1

/-- `Paddle.update` for the human player (sprites.py lines 104-107 with
`Player.get_direction`): snapshot `old_rect`, read the key state, move. -/
def Player.update (H : ℚ) (keyUp keyDown : Bool) (p : PaddleState) (dt : ℚ) : PaddleState :=
  Paddle.move H
    { p with old_rect := p.rect, direction := Player.get_direction keyUp keyDown } dt

/-- `Paddle.update` for the AI opponent (sprites.py lines 104-107 with
`Opponent.get_direction`): snapshot `old_rect`, chase the ball, move. -/
def Opponent.update (H : ℚ) (ballCentery : ℚ) (p : PaddleState) (dt : ℚ) : PaddleState :=
  Paddle.move H
    { p with old_rect := p.rect,
             direction := Opponent.get_direction ballCentery p.rect.centery } dt

/-! ## Ball (sprites.py lines 132-276) -/

/-- Random draws consumed by `Ball.reset` (sprites.py line 263):
`choice((1, -1))` for the x component, `uniform(0.7, 0.8)` and
`choice((-1, 1))` for the y component. -/
structure RandDir where
  xpos : Bool
  ymag : ℚ
  yneg : Bool
deriving DecidableEq

/-- The direction vector built from one set of random draws:
`Vector2(choice((1, -1)), uniform(0.7, 0.8) * choice((-1, 1)))`. -/
def RandDir.vec (r : RandDir) : Vec2 :=
  ⟨if r.xpos then 1 else -1, r.ymag * (if r.yneg then -1 else 1)⟩

/-- Mutable state of the `Ball` sprite (fields of `Ball.__init__` that the
update step touches). `start_time` is in milliseconds of
`pygame.time.get_ticks()`. -/
structure BallState where
  rect : Rect
  old_rect : Rect
  direction : Vec2
  speed_modifier : ℚ
  start_time : ℤ
deriving DecidableEq

/-- `Ball.duration` (sprites.py line 222): serve delay in milliseconds. -/
def Ball.duration : ℤ := 1200

/-- `Ball.timer` (sprites.py lines 266-270): the speed modifier is 1 once
`duration` milliseconds have elapsed since `start_time`, else 0. -/
def Ball.timer (now : ℤ) (b : BallState) : BallState :=
  if now - b.start_time ≥ Ball.duration then
    { b with speed_modifier := 1 }
  else
    { b with speed_modifier := 0 }

/-- `Ball.reset` (sprites.py lines 261-264): re-center the ball, draw a new
random direction, restart the serve timer. -/
def Ball.reset (W H : ℚ) (now : ℤ) (rnd : RandDir) (b : BallState) : BallState :=
  { b with rect := b.rect.setCenter (W / 2) (H / 2),
           direction := rnd.vec,
           start_time := now }

/-- Current and previous-frame rectangles of one paddle sprite, as seen by
the ball's collision step. -/
structure SpriteRects where
  rect : Rect
  old_rect : Rect
deriving DecidableEq

/-- One iteration of the loop body of `Ball.collision` (sprites.py lines
231-246) for a single paddle sprite, horizontal case: the two swept checks,
each snapping the ball to the paddle edge and negating `direction.x`. -/
def Ball.collideOneH (sp : SpriteRects) (b : BallState) : BallState :=
  if colliderect sp.rect b.rect then
    let b1 :=
      if b.rect.right ≥ sp.rect.left ∧ b.old_rect.right ≤ sp.old_rect.left then
        { b with rect := b.rect.setRight sp.rect.left,
                 direction := ⟨-b.direction.x, b.direction.y⟩ }
      else b
    if b1.rect.left ≤ sp.rect.right ∧ b1.old_rect.left ≥ sp.old_rect.right then
      { b1 with rect := b1.rect.setLeft sp.rect.right,
                direction := ⟨-b1.direction.x, b1.direction.y⟩ }
    else b1
  else b

/-- One iteration of the loop body of `Ball.collision` (sprites.py lines
231-246) for a single paddle sprite, vertical case. -/
def Ball.collideOneV (sp : SpriteRects) (b : BallState) : BallState :=
  if colliderect sp.rect b.rect then
    let b1 :=
      if b.rect.bottom ≥ sp.rect.top ∧ b.old_rect.bottom ≤ sp.old_rect.top then
        { b with rect := b.rect.setBottom sp.rect.top,
                 direction := ⟨b.direction.x, -b.direction.y⟩ }
      else b
    if b1.rect.top ≤ sp.rect.bottom ∧ b1.old_rect.top ≥ sp.old_rect.bottom then
      { b1 with rect := b1.rect.setTop sp.rect.bottom,
                direction := ⟨b1.direction.x, -b1.direction.y⟩ }
    else b1
  else b

/-- `Ball.collision('horizontal')`: fold the per-sprite step over the paddle
sprites (the ball's rect mutates across iterations, as in the Python loop). -/
def Ball.collisionH (sprites : List SpriteRects) (b : BallState) : BallState :=
  sprites.foldl (fun acc sp => Ball.collideOneH sp acc) b

/-- `Ball.collision('vertical')`. -/
def Ball.collisionV (sprites : List SpriteRects) (b : BallState) : BallState :=
  sprites.foldl (fun acc sp => Ball.collideOneV sp acc) b

/-- `Ball.move` (sprites.py lines 224-228): move horizontally, resolve
horizontal collisions, move vertically, resolve vertical collisions.
`speed` is `SPEED['ball']` from the absent `settings.py`. -/
def Ball.move (speed : ℚ) (sprites : List SpriteRects) (b : BallState) (dt : ℚ) : BallState :=
  let rx := b.rect.setLeft (b.rect.left + b.direction.x * speed * dt * b.speed_modifier)
  let b2 := Ball.collisionH sprites { b with rect := rx }
  let ry := b2.rect.setTop (b2.rect.top + b2.direction.y * speed * dt * b2.speed_modifier)
  Ball.collisionV sprites { b2 with rect := ry }

/-- First half of `Ball.wall_collision` (sprites.py lines 249-255): clamp the
ball at the top and bottom window edges, negating the y direction component
on contact. -/
def Ball.clampTopBottom (H : ℚ) (b : BallState) : BallState :=
  let b1 := if b.rect.top ≤ 0 then
      { b with rect := b.rect.setTop 0, direction := ⟨b.direction.x, -b.direction.y⟩ }
    else b
  if b1.rect.bottom ≥ H then
    { b1 with rect := b1.rect.setBottom H, direction := ⟨b1.direction.x, -b1.direction.y⟩ }
  else b1

/-- `Ball.wall_collision` (sprites.py lines 248-259): clamp and bounce at the
top and bottom edges; on exit past the left or right edge, report a scoring
side (`'player'` when `rect.x` is left of the window center, else
`'opponent'`) and reset. -/
def Ball.wall_collision (W H : ℚ) (now : ℤ) (rnd : RandDir) (b : BallState) :
    BallState × Option Side :=
  let b2 := Ball.clampTopBottom H b
  if b2.rect.right ≥ W ∨ b2.rect.left ≤ 0 then
    (Ball.reset W H now rnd b2,
     some (if b2.rect.left < W / 2 then Side.player else Side.opponent))
  else
    (b2, none)

/-- `Ball.update` (sprites.py lines 272-276): snapshot `old_rect`, run the
serve timer, move with collisions, resolve wall collisions. Returns the new
ball state and the scoring side reported to `update_score`, if any. -/
def Ball.update (W H speed : ℚ) (now : ℤ) (rnd : RandDir) (sprites : List SpriteRects)
    (b : BallState) (dt : ℚ) : BallState × Option Side :=
  let b1 := { b with old_rect := b.rect }
  let b2 := Ball.timer now b1
  let b3 := Ball.move speed sprites b2 dt
  Ball.wall_collision W H now rnd b3

/-! ## Preservation lemmas for the ball step -/

theorem collideOneH_keeps_time_size (sp : SpriteRects) (b : BallState) :
    (Ball.collideOneH sp b).start_time = b.start_time ∧
    (Ball.collideOneH sp b).rect.width = b.rect.width ∧
    (Ball.collideOneH sp b).rect.height = b.rect.height := by
  unfold Ball.collideOneH
  split_ifs <;> simp [Rect.setRight, Rect.setLeft] <;> split_ifs <;> simp

theorem collideOneV_keeps_time_size (sp : SpriteRects) (b : BallState) :
    (Ball.collideOneV sp b).start_time = b.start_time ∧
    (Ball.collideOneV sp b).rect.width = b.rect.width ∧
    (Ball.collideOneV sp b).rect.height = b.rect.height := by
  unfold Ball.collideOneV
  split_ifs <;> simp [Rect.setTop, Rect.setBottom] <;> split_ifs <;> simp

theorem collisionH_keeps_time_size (sprites : List SpriteRects) (b : BallState) :
    (Ball.collisionH sprites b).start_time = b.start_time ∧
    (Ball.collisionH sprites b).rect.width = b.rect.width ∧
    (Ball.collisionH sprites b).rect.height = b.rect.height := by
  induction sprites generalizing b with
  | nil => exact ⟨rfl, rfl, rfl⟩
  | cons sp rest ih =>
    have h1 := collideOneH_keeps_time_size sp b
    have h2 := ih (Ball.collideOneH sp b)
    simp only [Ball.collisionH, List.foldl] at h2 ⊢
    exact ⟨h2.1.trans h1.1, h2.2.1.trans h1.2.1, h2.2.2.trans h1.2.2⟩

theorem collisionV_keeps_time_size (sprites : List SpriteRects) (b : BallState) :
    (Ball.collisionV sprites b).start_time = b.start_time ∧
    (Ball.collisionV sprites b).rect.width = b.rect.width ∧
    (Ball.collisionV sprites b).rect.height = b.rect.height := by
  induction sprites generalizing b with
  | nil => exact ⟨rfl, rfl, rfl⟩
  | cons sp rest ih =>
    have h1 := collideOneV_keeps_time_size sp b
    have h2 := ih (Ball.collideOneV sp b)
    simp only [Ball.collisionV, List.foldl] at h2 ⊢
    exact ⟨h2.1.trans h1.1, h2.2.1.trans h1.2.1, h2.2.2.trans h1.2.2⟩

theorem move_keeps_time_size (speed : ℚ) (sprites : List SpriteRects) (b : BallState)
    (dt : ℚ) :
    (Ball.move speed sprites b dt).start_time = b.start_time ∧
    (Ball.move speed sprites b dt).rect.width = b.rect.width ∧
    (Ball.move speed sprites b dt).rect.height = b.rect.height := by
  unfold Ball.move
  have h2 := collisionH_keeps_time_size sprites
    { b with rect := b.rect.setLeft (b.rect.left + b.direction.x * speed * dt * b.speed_modifier) }
  have h3 := collisionV_keeps_time_size sprites
  refine ⟨?_, ?_, ?_⟩ <;>
    simp_all [Rect.setLeft, Rect.setTop]

theorem timer_keeps_rect_time (now : ℤ) (b : BallState) :
    (Ball.timer now b).rect = b.rect ∧ (Ball.timer now b).start_time = b.start_time := by
  unfold Ball.timer
  split_ifs <;> exact ⟨rfl, rfl⟩

theorem clampTopBottom_keeps_fields (H : ℚ) (b : BallState) :
    (Ball.clampTopBottom H b).start_time = b.start_time ∧
    (Ball.clampTopBottom H b).rect.left = b.rect.left ∧
    (Ball.clampTopBottom H b).rect.width = b.rect.width ∧
    (Ball.clampTopBottom H b).rect.height = b.rect.height := by
  unfold Ball.clampTopBottom
  split_ifs <;> simp [Rect.setTop, Rect.setBottom] <;> split_ifs <;> simp

theorem clampTopBottom_vbounds (H : ℚ) (b : BallState) (hh : b.rect.height ≤ H) :
    0 ≤ (Ball.clampTopBottom H b).rect.top ∧ (Ball.clampTopBottom H b).rect.bottom ≤ H := by
  unfold Ball.clampTopBottom
  split_ifs <;>
    simp only [Rect.setTop, Rect.setBottom, Rect.bottom] at * <;>
    split_ifs at * <;>
    constructor <;> simp at * <;> linarith

theorem wall_collision_no_reset_time (W H : ℚ) (now : ℤ) (rnd : RandDir) (b : BallState)
    (h : (Ball.wall_collision W H now rnd b).2 = none) :
    (Ball.wall_collision W H now rnd b).1.start_time = b.start_time := by
  simp only [Ball.wall_collision] at h ⊢
  split_ifs at h ⊢ with h1
  exact (clampTopBottom_keeps_fields H b).1

/-! ## C5: paddle clamping -/

theorem Paddle.move_in_bounds (H : ℚ) (p : PaddleState) (dt : ℚ)
    (hh : p.rect.height ≤ H) :
    0 ≤ (Paddle.move H p dt).rect.top ∧ (Paddle.move H p dt).rect.bottom ≤ H := by
  unfold Paddle.move
  simp only [Rect.setCentery, Rect.setTop, Rect.setBottom, Rect.bottom, Rect.centery]
  split_ifs <;> constructor <;> simp_all <;> linarith

/-- C5: for any dt ≥ 0, after a paddle's `update(dt)` (advance the vertical
center by direction * speed * dt, then clamp) the paddle rectangle is fully
within the vertical window bounds: top ≥ 0 and bottom ≤ window height.
Proved for both the human paddle and the AI paddle, for any paddle whose
height fits in the window. -/
theorem c5_paddle_update_in_bounds (H : ℚ) (keyUp keyDown : Bool) (ballCentery : ℚ)
    (p : PaddleState) (dt : ℚ) (_hdt : 0 ≤ dt) (hh : p.rect.height ≤ H) :
    (0 ≤ (Player.update H keyUp keyDown p dt).rect.top ∧
     (Player.update H keyUp keyDown p dt).rect.bottom ≤ H) ∧
    (0 ≤ (Opponent.update H ballCentery p dt).rect.top ∧
     (Opponent.update H ballCentery p dt).rect.bottom ≤ H) :=
  ⟨Paddle.move_in_bounds H _ dt hh, Paddle.move_in_bounds H _ dt hh⟩

/-- Witness for C5: a paddle of height 100 moving down fast from top 10 at
dt = 1 in a 720-high window ends fully inside the window. -/
theorem c5_paddle_update_in_bounds_witness :
    0 ≤ (Player.update 720 false true ⟨⟨0, 10, 20, 100⟩, ⟨0, 10, 20, 100⟩, 0, 900⟩ 1).rect.top ∧
    (Player.update 720 false true ⟨⟨0, 10, 20, 100⟩, ⟨0, 10, 20, 100⟩, 0, 900⟩ 1).rect.bottom ≤ 720 :=
  (c5_paddle_update_in_bounds 720 false true 0
    ⟨⟨0, 10, 20, 100⟩, ⟨0, 10, 20, 100⟩, 0, 900⟩ 1 (by norm_num) (by norm_num)).1

/-! ## C6: serve timer -/

/-- C6: after a reset (serve) at tick `now0`, the ball's speed multiplier as
computed by the timer is 0 at every tick strictly less than `duration` =
1200 ms after the reset and 1 from `duration` on; and an update that does
not reset (no scoring event) leaves `start_time` unchanged, so this holds
until the next reset. -/
theorem c6_serve_timer (W H speed : ℚ) (now0 t : ℤ) (rnd rnd2 : RandDir)
    (sprites : List SpriteRects) (b : BallState) (dt : ℚ) :
    (t - now0 < Ball.duration →
      (Ball.timer t (Ball.reset W H now0 rnd b)).speed_modifier = 0) ∧
    (t - now0 ≥ Ball.duration →
      (Ball.timer t (Ball.reset W H now0 rnd b)).speed_modifier = 1) ∧
    ((Ball.update W H speed t rnd2 sprites b dt).2 = none →
      (Ball.update W H speed t rnd2 sprites b dt).1.start_time = b.start_time) := by
  refine ⟨?_, ?_, ?_⟩
  · intro h
    unfold Ball.timer Ball.reset
    simp only []
    rw [if_neg]
    omega
  · intro h
    unfold Ball.timer Ball.reset
    simp only []
    rw [if_pos]
    omega
  · intro h
    simp only [Ball.update] at h ⊢
    rw [wall_collision_no_reset_time _ _ _ _ _ h,
      (move_keeps_time_size speed sprites _ dt).1,
      (timer_keeps_rect_time t { b with old_rect := b.rect }).2]

/-- Witness for C6: a reset at tick 1000 gives multiplier 0 at tick 2000 and
multiplier 1 at tick 2200. -/
theorem c6_serve_timer_witness :
    (Ball.timer 2000 (Ball.reset 1280 720 1000 ⟨true, 3/4, false⟩
      ⟨⟨0, 0, 10, 10⟩, ⟨0, 0, 10, 10⟩, ⟨1, 3/4⟩, 1, 0⟩)).speed_modifier = 0 ∧
    (Ball.timer 2200 (Ball.reset 1280 720 1000 ⟨true, 3/4, false⟩
      ⟨⟨0, 0, 10, 10⟩, ⟨0, 0, 10, 10⟩, ⟨1, 3/4⟩, 1, 0⟩)).speed_modifier = 1 :=
  ⟨(c6_serve_timer 1280 720 50 1000 2000 ⟨true, 3/4, false⟩ ⟨true, 3/4, false⟩ [] _ 0).1
      (by decide),
   (c6_serve_timer 1280 720 50 1000 2200 ⟨true, 3/4, false⟩ ⟨true, 3/4, false⟩ [] _ 0).2.1
      (by decide)⟩

/-! ## C3 (and C2): wall exit, scoring side, reset -/

/-- C3: whenever the ball's rectangle exits the left or right window edge,
`wall_collision` reports a scoring event — for the player side if the ball's
x-position (`rect.x`, the left edge) is left of the window center, else the
opponent side — and then resets unconditionally: the ball is re-centered,
the new direction has x component +1 or -1 (by the random draw) and y
component of magnitude in [0.7, 0.8] with a random sign, and the serve
timer restarts at the current tick. -/
theorem c3_exit_scores_then_resets (W H : ℚ) (now : ℤ) (rnd : RandDir) (b : BallState)
    (hy1 : 7/10 ≤ rnd.ymag) (hy2 : rnd.ymag ≤ 4/5)
    (hexit : b.rect.right ≥ W ∨ b.rect.left ≤ 0) :
    (Ball.wall_collision W H now rnd b).2 =
      some (if b.rect.left < W / 2 then Side.player else Side.opponent) ∧
    (Ball.wall_collision W H now rnd b).1.rect.centerx = W / 2 ∧
    (Ball.wall_collision W H now rnd b).1.rect.centery = H / 2 ∧
    ((Ball.wall_collision W H now rnd b).1.direction.x = 1 ∨
     (Ball.wall_collision W H now rnd b).1.direction.x = -1) ∧
    7/10 ≤ |(Ball.wall_collision W H now rnd b).1.direction.y| ∧
    |(Ball.wall_collision W H now rnd b).1.direction.y| ≤ 4/5 ∧
    (Ball.wall_collision W H now rnd b).1.start_time = now := by
  have hf := clampTopBottom_keeps_fields H b
  have hexit2 : (Ball.clampTopBottom H b).rect.right ≥ W ∨
      (Ball.clampTopBottom H b).rect.left ≤ 0 := by
    simp only [Rect.right, hf.2.1, hf.2.2.1]
    simpa only [Rect.right] using hexit
  have hmag : 0 < rnd.ymag := by linarith
  simp only [Ball.wall_collision]
  rw [if_pos hexit2]
  refine ⟨by rw [hf.2.1], ?_, ?_, ?_, ?_, ?_, rfl⟩
  · simp [Ball.reset, Rect.setCenter, Rect.centerx, hf.2.2.1]
  · simp [Ball.reset, Rect.setCenter, Rect.centery, hf.2.2.2]
  · rcases Bool.dichotomy rnd.xpos with hx | hx <;>
      simp [Ball.reset, RandDir.vec, hx]
  · rcases Bool.dichotomy rnd.yneg with hx | hx <;>
      simp [Ball.reset, RandDir.vec, hx, abs_neg, abs_of_pos hmag] <;> linarith
  · rcases Bool.dichotomy rnd.yneg with hx | hx <;>
      simp [Ball.reset, RandDir.vec, hx, abs_neg, abs_of_pos hmag] <;> linarith

/-- Witness for C3: a ball crossing the right edge of a 1280-wide window is
scored for the opponent and re-centered. -/
theorem c3_exit_scores_then_resets_witness :
    (Ball.wall_collision 1280 720 5000 ⟨true, 3/4, false⟩
      ⟨⟨1275, 300, 30, 30⟩, ⟨1270, 300, 30, 30⟩, ⟨1, 3/4⟩, 1, 0⟩).2 = some Side.opponent ∧
    (Ball.wall_collision 1280 720 5000 ⟨true, 3/4, false⟩
      ⟨⟨1275, 300, 30, 30⟩, ⟨1270, 300, 30, 30⟩, ⟨1, 3/4⟩, 1, 0⟩).1.rect.centerx = 1280 / 2 := by
  have h := c3_exit_scores_then_resets 1280 720 5000 ⟨true, 3/4, false⟩
    ⟨⟨1275, 300, 30, 30⟩, ⟨1270, 300, 30, 30⟩, ⟨1, 3/4⟩, 1, 0⟩
    (by norm_num) (by norm_num) (by left; norm_num [Rect.right])
  refine ⟨h.1.trans ?_, h.2.1⟩
  norm_num [Rect.left]

/-- Concrete ball for the C2 counterexample: it has crossed the left window
edge (left = -2 ≤ 0) and its center x (13) is left of the window center. -/
def c2Ball : BallState :=
  ⟨⟨-2, 300, 30, 30⟩, ⟨3, 300, 30, 30⟩, ⟨-1, 3/4⟩, 1, 0⟩

/-- C2 counterexample: a ball exiting exactly at the left window edge with
center x < window_width / 2 is credited to the PLAYER side by
`wall_collision`, not to the opponent side as the claim states. -/
theorem c2_counterexample :
    c2Ball.rect.left ≤ 0 ∧ c2Ball.rect.centerx < 1280 / 2 ∧
    (Ball.wall_collision 1280 720 5000 ⟨true, 3/4, false⟩ c2Ball).2 = some Side.player ∧
    (Ball.wall_collision 1280 720 5000 ⟨true, 3/4, false⟩ c2Ball).2 ≠ some Side.opponent := by
  have hval : (Ball.wall_collision 1280 720 5000 ⟨true, 3/4, false⟩ c2Ball).2 =
      some Side.player := by
    norm_num [Ball.wall_collision, Ball.clampTopBottom, Ball.reset, c2Ball, Rect.right,
      Rect.bottom, Rect.setTop, Rect.setBottom]
  exact ⟨by norm_num [c2Ball], by norm_num [c2Ball, Rect.centerx], hval,
    by rw [hval]; decide⟩

/-- C2 (amended): whenever the ball exits at the window's left edge
(x ≤ 0) with its center x left of the window center, the scoring event
always credits the player side (crediting is by final position only; the
ball state carries no notion of which paddle last touched it). -/
theorem c2_left_exit_credits_player (W H : ℚ) (now : ℤ) (rnd : RandDir) (b : BallState)
    (hW : 0 < W) (hleft : b.rect.left ≤ 0) (_hcenter : b.rect.centerx < W / 2) :
    (Ball.wall_collision W H now rnd b).2 = some Side.player := by
  have hf := clampTopBottom_keeps_fields H b
  have hleft2 : (Ball.clampTopBottom H b).rect.left ≤ 0 := by rw [hf.2.1]; exact hleft
  simp only [Ball.wall_collision]
  rw [if_pos (Or.inr hleft2), if_pos (by rw [hf.2.1]; linarith)]

/-- Witness for the amended C2: a concrete left-edge exit is credited to the
player. -/
theorem c2_left_exit_credits_player_witness :
    (Ball.wall_collision 1280 720 5000 ⟨true, 3/4, false⟩
      ⟨⟨-2, 300, 30, 30⟩, ⟨3, 300, 30, 30⟩, ⟨-1, 3/4⟩, 1, 0⟩).2 = some Side.player :=
  c2_left_exit_credits_player 1280 720 5000 ⟨true, 3/4, false⟩
    ⟨⟨-2, 300, 30, 30⟩, ⟨3, 300, 30, 30⟩, ⟨-1, 3/4⟩, 1, 0⟩
    (by norm_num) (by norm_num [Rect.left]) (by norm_num [Rect.centerx])

/-! ## C4: swept collision resolution -/

/-- The acceptance condition for a horizontal bounce where the ball enters
the paddle's left side: current overlap of the facing edges plus the
previous-frame separation (swept tie-break), as tested by `Ball.collision`. -/
abbrev acceptHLeft (sp : SpriteRects) (b : BallState) : Prop :=
  b.rect.right ≥ sp.rect.left ∧ b.old_rect.right ≤ sp.old_rect.left

/-- Acceptance for a horizontal bounce off the paddle's right side. -/
abbrev acceptHRight (sp : SpriteRects) (b : BallState) : Prop :=
  b.rect.left ≤ sp.rect.right ∧ b.old_rect.left ≥ sp.old_rect.right

/-- Acceptance for a vertical bounce off the paddle's top side. -/
abbrev acceptVTop (sp : SpriteRects) (b : BallState) : Prop :=
  b.rect.bottom ≥ sp.rect.top ∧ b.old_rect.bottom ≤ sp.old_rect.top

/-- Acceptance for a vertical bounce off the paddle's bottom side. -/
abbrev acceptVBottom (sp : SpriteRects) (b : BallState) : Prop :=
  b.rect.top ≤ sp.rect.bottom ∧ b.old_rect.top ≥ sp.old_rect.bottom

/-- Horizontal direction characterization of one collision-loop iteration:
the y component is untouched, and the x component is negated exactly when
the swept acceptance condition for one of the two sides holds. -/
theorem collideOneH_direction (sp : SpriteRects) (b : BallState)
    (hbw : 0 < b.old_rect.width) (hsw : 0 < sp.old_rect.width) :
    (Ball.collideOneH sp b).direction.y = b.direction.y ∧
    (Ball.collideOneH sp b).direction.x =
      (if colliderect sp.rect b.rect ∧ (acceptHLeft sp b ∨ acceptHRight sp b)
       then -b.direction.x else b.direction.x) := by
  by_cases hc : colliderect sp.rect b.rect
  · by_cases h1 : b.rect.right ≥ sp.rect.left ∧ b.old_rect.right ≤ sp.old_rect.left
    · have hno : ¬b.old_rect.left ≥ sp.old_rect.right := by
        have h12 := h1.2
        simp only [Rect.right] at h12
        intro habs
        simp only [Rect.right, ge_iff_le] at habs
        linarith
      constructor <;>
        simp [Ball.collideOneH, acceptHLeft, acceptHRight, hc, h1.1, h1.2, hno,
          Rect.setRight, Rect.setLeft]
    · by_cases h2 : b.rect.left ≤ sp.rect.right ∧ b.old_rect.left ≥ sp.old_rect.right
      · have hno1 : ¬b.old_rect.right ≤ sp.old_rect.left := by
          have h22 := h2.2
          simp only [Rect.right, ge_iff_le] at h22 ⊢
          intro habs
          linarith
        constructor <;>
          simp [Ball.collideOneH, acceptHLeft, acceptHRight, hc, h2.1, h2.2, hno1,
            Rect.setRight, Rect.setLeft]
      · constructor <;>
          simp [Ball.collideOneH, acceptHLeft, acceptHRight, hc, h1, h2,
            Rect.setRight, Rect.setLeft]
  · constructor <;>
      simp [Ball.collideOneH, acceptHLeft, acceptHRight, hc]

/-- Vertical direction characterization of one collision-loop iteration. -/
theorem collideOneV_direction (sp : SpriteRects) (b : BallState)
    (hbh : 0 < b.old_rect.height) (hsh : 0 < sp.old_rect.height) :
    (Ball.collideOneV sp b).direction.x = b.direction.x ∧
    (Ball.collideOneV sp b).direction.y =
      (if colliderect sp.rect b.rect ∧ (acceptVTop sp b ∨ acceptVBottom sp b)
       then -b.direction.y else b.direction.y) := by
  by_cases hc : colliderect sp.rect b.rect
  · by_cases h1 : b.rect.bottom ≥ sp.rect.top ∧ b.old_rect.bottom ≤ sp.old_rect.top
    · have hno : ¬b.old_rect.top ≥ sp.old_rect.bottom := by
        have h12 := h1.2
        simp only [Rect.bottom] at h12
        intro habs
        simp only [Rect.bottom, ge_iff_le] at habs
        linarith
      constructor <;>
        simp [Ball.collideOneV, acceptVTop, acceptVBottom, hc, h1.1, h1.2, hno,
          Rect.setTop, Rect.setBottom]
    · by_cases h2 : b.rect.top ≤ sp.rect.bottom ∧ b.old_rect.top ≥ sp.old_rect.bottom
      · have hno1 : ¬b.old_rect.bottom ≤ sp.old_rect.top := by
          have h22 := h2.2
          simp only [Rect.bottom, ge_iff_le] at h22 ⊢
          intro habs
          linarith
        constructor <;>
          simp [Ball.collideOneV, acceptVTop, acceptVBottom, hc, h2.1, h2.2, hno1,
            Rect.setTop, Rect.setBottom]
      · constructor <;>
          simp [Ball.collideOneV, acceptVTop, acceptVBottom, hc, h1, h2,
            Rect.setTop, Rect.setBottom]
  · constructor <;>
      simp [Ball.collideOneV, acceptVTop, acceptVBottom, hc]

/-- C4: per-axis swept collision resolution against one paddle. A bounce is
accepted only under the swept condition (current overlap of the facing
edges AND previous-frame separation on the same side, within a
`colliderect` overlap); a single accepted resolution negates exactly one
direction component — x for the horizontal axis, y for the vertical —
exactly once, and leaves the other component and the component magnitudes
unchanged (only the sign flips). -/
theorem c4_collision_resolution (sp : SpriteRects) (b : BallState)
    (hbw : 0 < b.old_rect.width) (hsw : 0 < sp.old_rect.width)
    (hbh : 0 < b.old_rect.height) (hsh : 0 < sp.old_rect.height) :
    ((Ball.collideOneH sp b).direction.y = b.direction.y ∧
     (Ball.collideOneH sp b).direction.x =
       (if colliderect sp.rect b.rect ∧ (acceptHLeft sp b ∨ acceptHRight sp b)
        then -b.direction.x else b.direction.x) ∧
     |(Ball.collideOneH sp b).direction.x| = |b.direction.x|) ∧
    ((Ball.collideOneV sp b).direction.x = b.direction.x ∧
     (Ball.collideOneV sp b).direction.y =
       (if colliderect sp.rect b.rect ∧ (acceptVTop sp b ∨ acceptVBottom sp b)
        then -b.direction.y else b.direction.y) ∧
     |(Ball.collideOneV sp b).direction.y| = |b.direction.y|) := by
  have hH := collideOneH_direction sp b hbw hsw
  have hV := collideOneV_direction sp b hbh hsh
  refine ⟨⟨hH.1, hH.2, ?_⟩, ⟨hV.1, hV.2, ?_⟩⟩
  · rw [hH.2]
    split_ifs <;> simp [abs_neg]
  · rw [hV.2]
    split_ifs <;> simp [abs_neg]

/-- Witness for C4: a concrete ball entering a paddle's left side flips its
x direction from 1 to -1 and keeps y at 3/4. -/
theorem c4_collision_resolution_witness :
    (Ball.collideOneH ⟨⟨100, 0, 20, 200⟩, ⟨100, 0, 20, 200⟩⟩
      ⟨⟨92, 50, 10, 10⟩, ⟨85, 50, 10, 10⟩, ⟨1, 3/4⟩, 1, 0⟩).direction.x = -1 ∧
    (Ball.collideOneH ⟨⟨100, 0, 20, 200⟩, ⟨100, 0, 20, 200⟩⟩
      ⟨⟨92, 50, 10, 10⟩, ⟨85, 50, 10, 10⟩, ⟨1, 3/4⟩, 1, 0⟩).direction.y = 3/4 := by
  have h := c4_collision_resolution ⟨⟨100, 0, 20, 200⟩, ⟨100, 0, 20, 200⟩⟩
    ⟨⟨92, 50, 10, 10⟩, ⟨85, 50, 10, 10⟩, ⟨1, 3/4⟩, 1, 0⟩
    (by norm_num) (by norm_num) (by norm_num) (by norm_num)
  refine ⟨h.1.2.1.trans ?_, h.1.1⟩
  rw [if_pos]
  constructor
  · simp only [colliderect, decide_eq_true_eq]
    norm_num [Rect.right, Rect.bottom]
  · left
    constructor <;> norm_num [Rect.right]

/-! ## C10: ball stays within the window after `update` -/

theorem wall_collision_in_window (W H : ℚ) (now : ℤ) (rnd : RandDir) (b : BallState)
    (hw : b.rect.width < W) (hh : b.rect.height ≤ H) :
    0 ≤ (Ball.wall_collision W H now rnd b).1.rect.top ∧
    (Ball.wall_collision W H now rnd b).1.rect.bottom ≤ H ∧
    0 < (Ball.wall_collision W H now rnd b).1.rect.left ∧
    (Ball.wall_collision W H now rnd b).1.rect.right < W := by
  have hf := clampTopBottom_keeps_fields H b
  have hv := clampTopBottom_vbounds H b hh
  simp only [Ball.wall_collision]
  by_cases hexit : (Ball.clampTopBottom H b).rect.right ≥ W ∨
      (Ball.clampTopBottom H b).rect.left ≤ 0
  · rw [if_pos hexit]
    simp only [Ball.reset, Rect.setCenter, Rect.bottom, Rect.right]
    refine ⟨?_, ?_, ?_, ?_⟩ <;> simp [hf.2.2.1, hf.2.2.2] <;> linarith
  · rw [if_neg hexit]
    push_neg at hexit
    have h1 := hexit.1
    have h2 := hexit.2
    simp only [Rect.right, not_le, gt_iff_lt] at h1
    exact ⟨hv.1, hv.2, h2, by simp only [Rect.right]; linarith⟩

/-- C10 (implicit): assuming the ball's rectangle fits in the window
(width < window width, height ≤ window height), after every `Ball.update`
with dt ≥ 0 the ball's rectangle lies within the window on both axes:
top ≥ 0, bottom ≤ window height, left > 0 and right < window width —
the vertical clamps of the wall collision and the unconditional re-centering
reset on any horizontal exit guarantee it. -/
theorem c10_ball_update_in_window (W H speed : ℚ) (now : ℤ) (rnd : RandDir)
    (sprites : List SpriteRects) (b : BallState) (dt : ℚ)
    (_hdt : 0 ≤ dt) (hw : b.rect.width < W) (hh : b.rect.height ≤ H) :
    0 ≤ (Ball.update W H speed now rnd sprites b dt).1.rect.top ∧
    (Ball.update W H speed now rnd sprites b dt).1.rect.bottom ≤ H ∧
    0 < (Ball.update W H speed now rnd sprites b dt).1.rect.left ∧
    (Ball.update W H speed now rnd sprites b dt).1.rect.right < W := by
  have hm := move_keeps_time_size speed sprites (Ball.timer now { b with old_rect := b.rect }) dt
  have ht := timer_keeps_rect_time now { b with old_rect := b.rect }
  have hw3 : (Ball.move speed sprites (Ball.timer now { b with old_rect := b.rect }) dt).rect.width < W := by
    rw [hm.2.1, ht.1]
    exact hw
  have hh3 : (Ball.move speed sprites (Ball.timer now { b with old_rect := b.rect }) dt).rect.height ≤ H := by
    rw [hm.2.2, ht.1]
    exact hh
  simp only [Ball.update]
  exact wall_collision_in_window W H now rnd _ hw3 hh3

/-- Witness for C10: a ball resting at the window center stays in bounds. -/
theorem c10_ball_update_in_window_witness :
    0 ≤ (Ball.update 1280 720 50 0 ⟨true, 3/4, false⟩ []
      ⟨⟨625, 345, 30, 30⟩, ⟨625, 345, 30, 30⟩, ⟨1, 3/4⟩, 0, 0⟩ 0).1.rect.top ∧
    (Ball.update 1280 720 50 0 ⟨true, 3/4, false⟩ []
      ⟨⟨625, 345, 30, 30⟩, ⟨625, 345, 30, 30⟩, ⟨1, 3/4⟩, 0, 0⟩ 0).1.rect.bottom ≤ 720 ∧
    0 < (Ball.update 1280 720 50 0 ⟨true, 3/4, false⟩ []
      ⟨⟨625, 345, 30, 30⟩, ⟨625, 345, 30, 30⟩, ⟨1, 3/4⟩, 0, 0⟩ 0).1.rect.left ∧
    (Ball.update 1280 720 50 0 ⟨true, 3/4, false⟩ []
      ⟨⟨625, 345, 30, 30⟩, ⟨625, 345, 30, 30⟩, ⟨1, 3/4⟩, 0, 0⟩ 0).1.rect.right < 1280 :=
  c10_ball_update_in_window 1280 720 50 0 ⟨true, 3/4, false⟩ []
    ⟨⟨625, 345, 30, 30⟩, ⟨625, 345, 30, 30⟩, ⟨1, 3/4⟩, 0, 0⟩ 0
    (by norm_num) (by norm_num) (by norm_num)

/-! ## Game loop (main.py `Game.run`, lines 608-703) -/

/-- The three sprites owned by the game session (main.py lines 55-57). -/
structure World where
  player : PaddleState
  opponent : PaddleState
  ball : BallState
deriving DecidableEq

/-- The rectangle pair of a paddle as seen by the ball's collision loop. -/
def spriteRectsOf (p : PaddleState) : SpriteRects := ⟨p.rect, p.old_rect⟩

/-- Modelled from the spec: `groups.py` (class `AllSprites`) is not under
src/. Per the spec's game-loop contract ("orchestrates frame timing, input,
update, draw order"; one update per frame per entity),
`all_sprites.update(dt)` applies each sprite's per-frame update once, in
the group's insertion order (player, ball, opponent — main.py lines 55-57).
The ball sees the player's already-updated rectangles and the opponent's
pre-update rectangles (`paddle_sprites` insertion order: player, opponent);
the opponent AI reads the ball's post-update center. Returns the updated
world and the scoring side the ball reported, if any. -/
def World.update (W H ballSpeed : ℚ) (keyUp keyDown : Bool) (now : ℤ) (rnd : RandDir)
    (w : World) (dt : ℚ) : World × Option Side :=
  let p := Player.update H keyUp keyDown w.player dt
  let res := Ball.update W H ballSpeed now rnd
    [spriteRectsOf p, spriteRectsOf w.opponent] w.ball dt
  let o := Opponent.update H res.1.rect.centery w.opponent dt
  (⟨p, o, res.1⟩, res.2)

/-- Whole game state the loop mutates: sprites plus score/challenge flags. -/
structure GState where
  world : World
  ch : ChState
deriving DecidableEq

/-- Configuration constants of the absent `settings.py` used by the loop:
window size, ball speed, and the paddle start positions `POS`. -/
structure Config where
  W : ℚ
  H : ℚ
  ballSpeed : ℚ
  posPlayerX : ℚ
  posPlayerY : ℚ
  posOpponentX : ℚ
  posOpponentY : ℚ
deriving DecidableEq

/-- Paddle repositioning shared by `reset_challenge_round` (main.py lines
108-121) and the tail of `challenge_menu` (lines 469-483): the player paddle
is re-centered at `POS['player']`, then every paddle whose center is left of
the window center is re-centered at `POS['opponent']`, the others at
`POS['player']`. -/
def repositionPaddles (cfg : Config) (w : World) : World :=
  let p1 := { w.player with rect := w.player.rect.setCenter cfg.posPlayerX cfg.posPlayerY }
  let p2 := if p1.rect.centerx < cfg.W / 2 then
      { p1 with rect := p1.rect.setCenter cfg.posOpponentX cfg.posOpponentY }
    else
      { p1 with rect := p1.rect.setCenter cfg.posPlayerX cfg.posPlayerY }
  let o2 := if w.opponent.rect.centerx < cfg.W / 2 then
      { w.opponent with rect := w.opponent.rect.setCenter cfg.posOpponentX cfg.posOpponentY }
    else
      { w.opponent with rect := w.opponent.rect.setCenter cfg.posPlayerX cfg.posPlayerY }
  { w with player := p2, opponent := o2 }

/-- `Game.reset_challenge_round` (main.py lines 97-126): zero the score,
reset the ball (serve delay restarts), reposition the paddles, hide the
retry modal. -/
def reset_challenge_round (cfg : Config) (now : ℤ) (rnd : RandDir) (g : GState) : GState :=
  let w1 := { g.world with ball := Ball.reset cfg.W cfg.H now rnd g.world.ball }
  ⟨repositionPaddles cfg w1,
   { g.ch with score_player := 0, score_opponent := 0, show_retry_modal := false }⟩

/-- State effect of `Game.challenge_menu` returning (main.py lines 461-483):
score zeroed, challenge enabled and not won, ball reset, paddles
repositioned. -/
def challenge_menu_fx (cfg : Config) (now : ℤ) (rnd : RandDir) (g : GState) : GState :=
  let w1 := { g.world with ball := Ball.reset cfg.W cfg.H now rnd g.world.ball }
  ⟨repositionPaddles cfg w1,
   { g.ch with score_player := 0, score_opponent := 0,
               in_challenge := true, challenge_won := false }⟩

/-- Per-frame external inputs of one iteration of the gameplay loop: event
flags (window close, Escape), the up/down key state, the modal mouse hits,
the current tick, the frame delta time, the random draws a ball reset in
the simulation or in the modal/menu path would consume, and whether a
re-login along the menu path succeeds. -/
structure FrameInput where
  quit : Bool
  escape : Bool
  loginOk : Bool
  keyUp : Bool
  keyDown : Bool
  clickYes : Bool
  clickNo : Bool
  now : ℤ
  dt : ℚ
  rnd : RandDir
  rnd2 : RandDir
deriving DecidableEq

/-- Result of one gameplay-loop iteration: the new game state, whether the
loop terminated during this iteration, whether the simulation update
(`all_sprites.update`) ran, and whether the frame was drawn. -/
structure FrameOut where
  state : GState
  halted : Bool
  simulated : Bool
  rendered : Bool
deriving DecidableEq

/-- One iteration of the gameplay loop in `Game.run` (main.py lines
626-702), in order: event handling (quit; Escape while the retry modal is
shown acts as "No": close modal, leave challenge, rerun the menu flow —
exiting if the re-login fails, else re-entering the challenge); background
drawing; the simulation update `all_sprites.update(dt)` unless the retry
modal is shown, with a reported scoring side fed to `update_score`;
sprite/score drawing; retry-modal mouse handling (Yes → 
`reset_challenge_round`, No → leave challenge and rerun the menu flow);
finally, if the challenge is won, the loop shows the final menu and stops.
The iteration is split into stage functions `frameEvents`, `frameSim` and
`frameModal`, composed by `frame` below.

`frameEvents` is the event handling (main.py lines 627-647): quitting halts;
Escape while the retry modal is shown acts as "No". -/
def frameEvents (cfg : Config) (inp : FrameInput) (g : GState) : GState × Bool :=
  if inp.escape && g.ch.show_retry_modal then
    let g1 : GState := ⟨g.world, { g.ch with show_retry_modal := false, in_challenge := false }⟩
    if inp.loginOk then (challenge_menu_fx cfg inp.now inp.rnd2 g1, false)
    else (g1, true)
  else (g, false)

/-- The conditional simulation step (main.py lines 664-666): run
`all_sprites.update(dt)` (feeding a reported scoring side to `update_score`)
unless the retry modal is shown. Also reports whether the simulation ran. -/
def frameSim (cfg : Config) (inp : FrameInput) (g : GState) : GState × Bool :=
  if g.ch.show_retry_modal then (g, false)
  else
    let wu := World.update cfg.W cfg.H cfg.ballSpeed inp.keyUp inp.keyDown
      inp.now inp.rnd g.world inp.dt
    let ch2 := match wu.2 with
      | some s => update_score s g.ch
      | none => g.ch
    (⟨wu.1, ch2⟩, true)

/-- The retry-modal mouse handling (main.py lines 675-697): Yes →
`reset_challenge_round`; No → leave the challenge and rerun the menu flow
(halting when the re-login fails). -/
def frameModal (cfg : Config) (inp : FrameInput) (g : GState) : GState × Bool :=
  if g.ch.show_retry_modal then
    if inp.clickYes then (reset_challenge_round cfg inp.now inp.rnd2 g, false)
    else if inp.clickNo then
      let g3 : GState := ⟨g.world, { g.ch with show_retry_modal := false, in_challenge := false }⟩
      if inp.loginOk then (challenge_menu_fx cfg inp.now inp.rnd2 g3, false)
      else (g3, true)
    else (g, false)
  else (g, false)

def frame (cfg : Config) (inp : FrameInput) (g : GState) : FrameOut :=
  if inp.quit then ⟨g, true, false, false⟩
  else
    let s1 := frameEvents cfg inp g
    if s1.2 then ⟨s1.1, true, false, false⟩
    else
      let s2 := frameSim cfg inp s1.1
      let s3 := frameModal cfg inp s2.1
      if s3.2 then ⟨s3.1, true, s2.2, true⟩
      else if s3.1.ch.in_challenge && s3.1.ch.challenge_won then
        ⟨s3.1, true, s2.2, true⟩
      else
        ⟨s3.1, false, s2.2, true⟩

/-- Iterating the gameplay loop over a list of per-frame inputs, stopping
as soon as an iteration halts (break / return / quit). -/
def runFrames (cfg : Config) (g : GState) (inputs : List FrameInput) : GState :=
  match inputs with
  | [] => g
  | i :: rest =>
    let r := frame cfg i g
    if r.halted then r.state else runFrames cfg r.state rest

/-! ## C7: a won challenge ends the round -/

/-- C7: once the challenge's won flag is true the round ends immediately —
any loop iteration whose resulting state has `in_challenge` and
`challenge_won` both set halts the loop at that iteration — and therefore no
further scoring event is ever delivered to the score/challenge state
machine: however many further frame inputs arrive, the game state (both
score counters and the challenge state included) stays exactly the halting
state. -/
theorem c7_won_ends_round (cfg : Config) (i : FrameInput) (g : GState) :
    ((frame cfg i g).state.ch.in_challenge = true ∧
     (frame cfg i g).state.ch.challenge_won = true →
       (frame cfg i g).halted = true) ∧
    (∀ rest : List FrameInput, (frame cfg i g).halted = true →
       runFrames cfg g (i :: rest) = (frame cfg i g).state) := by
  constructor
  · intro hw
    simp only [frame] at hw ⊢
    split_ifs at hw ⊢ <;> simp_all
  · intro rest h
    simp only [runFrames]
    rw [if_pos h]

/-! ## C8: the retry modal freezes the simulation -/

/-- C8: while the overshoot retry modal is shown, a loop iteration that
carries no resolving input (no quit, no Escape, no Yes/No click) skips the
simulation update entirely — the whole game state (paddle and ball state,
serve timer, score counters, flags) is unchanged across the frame — while
the frame is still drawn and the input events still polled. -/
theorem c8_modal_skips_simulation (cfg : Config) (i : FrameInput) (g : GState)
    (hmodal : g.ch.show_retry_modal = true)
    (hq : i.quit = false) (hesc : i.escape = false)
    (hyes : i.clickYes = false) (hno : i.clickNo = false) :
    (frame cfg i g).state = g ∧
    (frame cfg i g).simulated = false ∧
    (frame cfg i g).rendered = true := by
  have h1 : frameEvents cfg i g = (g, false) := by simp [frameEvents, hesc]
  have h2 : frameSim cfg i g = (g, false) := by simp [frameSim, hmodal]
  have h3 : frameModal cfg i g = (g, false) := by simp [frameModal, hmodal, hyes, hno]
  simp only [frame, hq, h1, h2, h3]
  split_ifs <;> simp_all

/-- Concrete configuration for the loop witnesses: a 100×100 window. -/
def wCfg : Config := ⟨100, 100, 50, 90, 50, 10, 50⟩

/-- Concrete frame input for the loop witnesses: no quit/Escape/clicks,
login would succeed, no keys, tick 2000, dt = 0. -/
def wInp : FrameInput :=
  ⟨false, false, true, false, false, false, false, 2000, 0,
   ⟨true, 3/4, false⟩, ⟨true, 3/4, false⟩⟩

/-- Concrete game state for the C7 witness: score (25, 7), challenge active,
ball sitting on the left edge (about to score for the player), paddles away
from the ball. -/
def c7G : GState :=
  ⟨⟨⟨⟨86, 10, 4, 20⟩, ⟨86, 10, 4, 20⟩, 0, 30⟩,
    ⟨⟨8, 78, 4, 15⟩, ⟨8, 78, 4, 15⟩, 0, 30⟩,
    ⟨⟨0, 45, 10, 10⟩, ⟨0, 45, 10, 10⟩, ⟨-1, 3/4⟩, 1, 0⟩⟩,
   ⟨25, 7, true, false, false⟩⟩

/-- Witness for C7: the frame in which the player's 26th point lands (score
reaching exactly (26, 7)) halts the loop, and iterating with any further
input list returns the same halting state. -/
theorem c7_won_ends_round_witness :
    (frame wCfg wInp c7G).halted = true ∧
    runFrames wCfg c7G [wInp] = (frame wCfg wInp c7G).state := by
  have hwin : (frame wCfg wInp c7G).state.ch.in_challenge = true ∧
      (frame wCfg wInp c7G).state.ch.challenge_won = true := by
    norm_num [frame, frameEvents, frameSim, frameModal, wCfg, wInp, c7G,
      World.update, Player.update, Opponent.update, Paddle.move,
      Player.get_direction, Opponent.get_direction, Ball.update, Ball.timer,
      Ball.move, Ball.collisionH, Ball.collisionV, Ball.collideOneH,
      Ball.collideOneV, Ball.wall_collision, Ball.clampTopBottom, Ball.reset,
      Ball.duration, RandDir.vec, colliderect, spriteRectsOf, update_score,
      TARGET_PLAYER, TARGET_OPPONENT, Rect.right, Rect.bottom, Rect.centerx,
      Rect.centery, Rect.setTop, Rect.setBottom, Rect.setLeft, Rect.setRight,
      Rect.setCentery, Rect.setCenter]
  have hh := (c7_won_ends_round wCfg wInp c7G).1 hwin
  exact ⟨hh, (c7_won_ends_round wCfg wInp c7G).2 [] hh⟩

/-- Concrete game state for the C8 witness: the retry modal is shown after
an overshoot to (27, 7). -/
def c8G : GState :=
  ⟨⟨⟨⟨86, 10, 4, 20⟩, ⟨86, 10, 4, 20⟩, 0, 30⟩,
    ⟨⟨8, 78, 4, 15⟩, ⟨8, 78, 4, 15⟩, 0, 30⟩,
    ⟨⟨45, 45, 10, 10⟩, ⟨45, 45, 10, 10⟩, ⟨1, 3/4⟩, 1, 0⟩⟩,
   ⟨27, 7, true, false, true⟩⟩

/-- Witness for C8: with the retry modal shown and no resolving input, the
frame leaves the whole game state untouched, skips the simulation, and is
still rendered. -/
theorem c8_modal_skips_simulation_witness :
    (frame wCfg wInp c8G).state = c8G ∧
    (frame wCfg wInp c8G).simulated = false ∧
    (frame wCfg wInp c8G).rendered = true :=
  c8_modal_skips_simulation wCfg wInp c8G rfl rfl rfl rfl rfl
